import Mathlib

/-!
Verification model of the Shoppy Sensay chat backend.

The definitions below are a shallow embedding of the TypeScript source:
`SensayService.sendChatMessage` (the chat orchestrator) and the cart
routes of `src/server/routes.ts`.  JavaScript strings are Lean strings,
prices (parsed with `parseFloat` in the source) are rationals, database
rows are lists of structures, and the Sensay AI and Shopify catalog
collaborators are oracle functions supplied through an environment.
-/

/-- `s.toLowerCase()` of JavaScript, as used by the intent classifier. -/
def toLowerCase (s : String) : String :=
  String.mk (s.data.map Char.toLower)

/-- Sublist-of-consecutive-characters test: `hasSub sub l` holds when
`sub` occurs contiguously inside `l`. -/
def hasSub (sub : List Char) : List Char → Bool
  | [] => sub.isEmpty
  | c :: rest => sub.isPrefixOf (c :: rest) || hasSub sub rest

/-- `s.includes(sub)` of JavaScript (case-sensitive substring test). -/
def includes (s sub : String) : Bool :=
  hasSub sub.data s.data

/-- `indicators.some(i => message.toLowerCase().includes(i.toLowerCase()))`,
the matching step shared by every indicator list in `sendChatMessage`. -/
def anyIndicator (m : String) (indicators : List String) : Bool :=
  indicators.any fun i => includes (toLowerCase m) (toLowerCase i)

def specificSearchIndicators : List String :=
  ["show me", "tampilkan", "cari yang", "search for", "find me",
   "dengan budget", "with budget", "harga", "price range", "under", "di bawah",
   "beli sekarang", "buy now", "add to cart", "tambah ke keranjang",
   "rekomendasi", "recommend", "suggest", "pilihkan", "i want to buy",
   "looking for with", "need something with", "budget of", "around"]

def followUpIndicators : List String :=
  ["is there any other", "are there any other", "any other option", "any other choice",
   "what else", "anything else", "other options", "other choices", "alternatives",
   "show me more", "more options", "different", "another", "else",
   "how about", "what about", "can you show", "do you have",
   "any more", "more of", "similar", "like this", "comparable"]

def purchaseIndicators : List String :=
  ["i want to buy", "i want to order", "i want to purchase", "i want to get",
   "i would like to buy", "i would like to order", "i would like to purchase",
   "i need to buy", "i need to order", "i need to purchase",
   "saya ingin membeli", "saya ingin memesan", "saya ingin order",
   "saya mau beli", "saya mau pesan", "saya mau order",
   "beli", "pesan", "order", "ambil", "dapatkan",
   "add to cart", "tambah ke keranjang", "masukkan ke keranjang",
   "buy this", "order this", "purchase this", "get this",
   "i want this", "i want that", "i want it", "i want one",
   "i want the", "i want a", "i want an",
   "i\x27ll take", "i\x27ll get", "i\x27ll buy", "i\x27ll order",
   "i\x27ll have", "i\x27ll purchase", "i\x27ll grab",
   "take this", "get this", "have this", "grab this",
   "yes", "sure", "okay", "ok", "alright", "deal",
   "i\x27ll take it", "i\x27ll get it", "i\x27ll buy it",
   "add it", "put it in", "add to my cart"]

def historyIndicators : List String :=
  ["have i bought", "have i purchased", "have i ordered", "did i buy", "did i purchase",
   "sudah pernah beli", "sudah pernah pesan", "sudah pernah order",
   "riwayat pembelian", "purchase history", "order history", "buying history",
   "what did i buy", "what have i bought", "my purchases", "my orders"]

def specificProductHistoryIndicators : List String :=
  ["have i bought this", "have i purchased this", "did i buy this", "did i purchase this",
   "sudah pernah beli ini", "sudah pernah pesan ini", "sudah pernah order ini",
   "pernah beli", "pernah pesan", "pernah order", "bought before", "purchased before"]

def cartManagementIndicators : List String :=
  ["how much", "how many", "what\x27s in my cart", "what is in my cart",
   "show my cart", "my cart", "cart items", "cart contents",
   "remove", "delete", "reduce", "decrease", "kurangi", "hapus",
   "i don\x27t want", "i don\x27t need", "cancel", "batal",
   "change quantity", "update quantity", "modify quantity"]

def hasSpecificIntent (m : String) : Bool :=
  anyIndicator m specificSearchIndicators

def hasDetailedRequirements (m : String) : Bool :=
  decide (m.length > 25) &&
    (includes (toLowerCase m) "untuk" ||
     includes (toLowerCase m) "for" ||
     includes (toLowerCase m) "gaming" ||
     includes (toLowerCase m) "photography" ||
     includes (toLowerCase m) "business" ||
     includes (toLowerCase m) "budget" ||
     includes (toLowerCase m) "range" ||
     includes (toLowerCase m) "style" ||
     includes (toLowerCase m) "work" ||
     includes (toLowerCase m) "daily" ||
     includes (toLowerCase m) "professional")

def isAnsweringQuestions (m : String) : Bool :=
  includes (toLowerCase m) "mainly" ||
  includes (toLowerCase m) "mostly" ||
  (includes m "$" && includes m "-") ||
  (includes (toLowerCase m) "rp" && (includes m "-" || includes m "juta")) ||
  includes (toLowerCase m) "prefer" ||
  includes (toLowerCase m) "important" ||
  includes (toLowerCase m) "need it for"

def isFollowUpQuestion (m : String) : Bool :=
  anyIndicator m followUpIndicators

def isPurchaseIntent (m : String) : Bool :=
  anyIndicator m purchaseIndicators

def isHistoryInquiry (m : String) : Bool :=
  anyIndicator m historyIndicators

def isSpecificProductHistoryInquiry (m : String) : Bool :=
  anyIndicator m specificProductHistoryIndicators

def isCartManagement (m : String) : Bool :=
  anyIndicator m cartManagementIndicators

def isProductSearch (m : String) : Bool :=
  hasSpecificIntent m || hasDetailedRequirements m ||
  isAnsweringQuestions m || isFollowUpQuestion m

def needsSystemAction (m : String) : Bool :=
  isPurchaseIntent m || isHistoryInquiry m ||
  isSpecificProductHistoryInquiry m || isCartManagement m

/-- Unit words of the quantity regex
`(\d+)\s*(buah|pieces?|items?|pcs?|unit|satuan|item)`, with the optional
suffixes expanded. -/
def quantityUnits : List String :=
  ["buah", "pieces", "piece", "items", "item", "pcs", "pc", "unit", "satuan"]

def digitsVal (l : List Char) : Nat :=
  l.foldl (fun n c => n * 10 + (c.toNat - 48)) 0

/-- Leftmost match of the quantity regex against the (lowercased)
character stream: a maximal digit run, optional whitespace, then a unit
word; the captured group is the digit run. -/
def scanQuantity : List Char → Option Nat
  | [] => none
  | c :: rest =>
    let run := (c :: rest).takeWhile Char.isDigit
    let tail := ((c :: rest).dropWhile Char.isDigit).dropWhile Char.isWhitespace
    if !run.isEmpty && quantityUnits.any (fun u => u.data.isPrefixOf tail) then
      some (digitsVal run)
    else
      scanQuantity rest

/-- `message.match(quantityPattern)` with the `parseInt` of group 1 and
the default of 1 when there is no match. -/
def requestedQuantity (m : String) : Nat :=
  (scanQuantity (toLowerCase m).data).getD 1

/-- A Shopify product snapshot as attached to assistant messages.  The
source reads the price from `priceRange.minVariantPrice.amount` with
`parseFloat`; it is modelled directly as a rational. -/
structure Product where
  id : String
  handle : String
  title : String
  description : String
  price : Rat
  currencyCode : String
  imageUrl : String
deriving DecidableEq

structure Session where
  id : Nat
  userId : String
  updatedAt : Nat
deriving DecidableEq

structure StoredMsg where
  sessionId : Nat
  role : String
  content : String
  products : List Product
  timestamp : Nat
deriving DecidableEq

structure CartItem where
  id : Nat
  userId : String
  productId : String
  productName : String
  description : String
  price : Rat
  quantity : Nat
  total : Rat
  createdAt : Nat
deriving DecidableEq

structure PurchaseRecord where
  userId : String
  productName : String
  price : Rat
  quantity : Nat
  purchaseDate : Nat
deriving DecidableEq

/-- The relational store behind Prisma: row lists plus a fresh-id counter
and a clock used for `createdAt`, `updatedAt` and message timestamps. -/
structure Db where
  sessions : List Session
  messages : List StoredMsg
  cart : List CartItem
  purchases : List PurchaseRecord
  nextId : Nat
  now : Nat
deriving DecidableEq

/-- A JavaScript error as inspected by the `catch` block of
`sendChatMessage` (fields `code`, `name`, `message`). -/
structure JsError where
  code : Option String
  name : Option String
  message : String
deriving DecidableEq

/-- External collaborators: the Sensay AI (prompt to reply), the Shopify
catalog (query to products), and a switch modelling a storage failure of
the message-save step wrapped in try/catch by the source. -/
structure Env where
  ai : String → Except JsError String
  catalog : String → Except Unit (List Product)
  saveFails : Bool

/-- The success payload returned by `sendChatMessage`. -/
structure Payload where
  message : String
  sessionId : Nat
  timestamp : Nat
  isNewSession : Bool
  shopifyProducts : List Product
deriving DecidableEq

/-- Insert keeping the list ordered by strictly greater key first; models
one step of a Prisma `orderBy: { key: 'desc' }` read. -/
def insertDescBy {α : Type} (key : α → Nat) (a : α) : List α → List α
  | [] => [a]
  | b :: l => if key b > key a then b :: insertDescBy key a l else a :: b :: l

/-- Sort descending by a numeric key; models `orderBy: ... 'desc'`. -/
def sortDescBy {α : Type} (key : α → Nat) : List α → List α
  | [] => []
  | a :: l => insertDescBy key a (sortDescBy key l)

def findSessionById (db : Db) (u : String) (i : Nat) : Option Session :=
  db.sessions.find? fun s => s.id == i && s.userId == u

/-- The head of `orderBy: { updatedAt: 'desc' }`: a session of the user
with maximal `updatedAt`. -/
def mostRecent : List Session → Option Session
  | [] => none
  | s :: rest =>
    match mostRecent rest with
    | none => some s
    | some t => if t.updatedAt > s.updatedAt then some t else some s

def mostRecentSession (db : Db) (u : String) : Option Session :=
  mostRecent (db.sessions.filter fun s => s.userId == u)

/-- The `tempChatSession` lookup of `sendChatMessage` (only performed for
non-new chats; by id when a session id is supplied, else the most
recently updated session of the user). -/
def tempSession (db : Db) (u : String) (isNewChat : Bool) (sid : Option Nat) : Option Session :=
  if isNewChat then none
  else
    match sid with
    | some i => findSessionById db u i
    | none => mostRecentSession db u

/-- Messages of a session ordered newest first
(`orderBy: { timestamp: 'desc' }`). -/
def sessionMessagesDesc (db : Db) (sid : Nat) : List StoredMsg :=
  sortDescBy (fun msg => msg.timestamp) (db.messages.filter fun msg => msg.sessionId == sid)

/-- The product-in-focus scan: over the 10 most recent messages of the
session, the first product attached to the most recent assistant message
that carries a non-empty product list. -/
def findProductInRecent (db : Db) : Option Session → Option Product
  | none => none
  | some s =>
    let recent := (sessionMessagesDesc db s.id).take 10
    match recent.find? (fun msg => msg.role == "assistant" && !msg.products.isEmpty) with
    | some msg => msg.products.head?
    | none => none

def userPurchasesDesc (db : Db) (u : String) : List PurchaseRecord :=
  sortDescBy (fun p => p.purchaseDate) (db.purchases.filter fun p => p.userId == u)

def userCartDesc (db : Db) (u : String) : List CartItem :=
  sortDescBy (fun c => c.createdAt) (db.cart.filter fun c => c.userId == u)

/-- The purchase-intent system block when a focus product was found. -/
def purchaseProductBlock (p : Product) (q : Nat) : String :=
  "[SYSTEM DATA - PURCHASE INTENT DETECTED]\nProduct: " ++ p.title ++
  "\nQuantity: " ++ toString q ++
  "\nPrice: " ++ toString p.price ++ " " ++ p.currencyCode ++
  "\nDescription: " ++ p.description ++
  "\nProduct ID: " ++ p.id ++
  "\nHandle: " ++ p.handle ++
  "\n\n[SYSTEM ACTION AVAILABLE: Add to cart automatically if user confirms purchase intent]"

/-- The purchase-intent system block when no product was found in the
conversation context. -/
def purchaseAskBlock (m : String) (q : Nat) : String :=
  "[SYSTEM DATA - PURCHASE INTENT DETECTED]\nNo specific product found in conversation context.\nUser message: \"" ++
  m ++ "\"\nDetected quantity: " ++ toString q ++
  "\n\n[SYSTEM ACTION: Ask user to specify which product they want to purchase]"

def historyLine (i : Nat) (p : PurchaseRecord) : String :=
  toString (i + 1) ++ ". Product: " ++ p.productName ++
  ", Quantity: " ++ toString p.quantity ++
  ", Date: " ++ toString p.purchaseDate ++
  ", Price: " ++ toString p.price

/-- The purchase-history system block over the (at most 10, newest first)
records handed to it. -/
def historyBlock (recs : List PurchaseRecord) : String :=
  "[SYSTEM DATA - PURCHASE HISTORY]\nTotal purchases: " ++ toString recs.length ++
  "\nRecent purchases:\n" ++
  String.intercalate "\n" (recs.enum.map fun ip => historyLine ip.1 ip.2) ++
  "\n\n[SYSTEM ACTION: Provide natural response about user\x27s purchase history]"

def noHistoryBlock : String :=
  "[SYSTEM DATA - PURCHASE HISTORY]\nNo purchase history found for this user.\n\n[SYSTEM ACTION: Encourage user to start shopping]"

def specificYesBlock (p : Product) (ph : List PurchaseRecord) : String :=
  "[SYSTEM DATA - SPECIFIC PRODUCT HISTORY]\nProduct: " ++ p.title ++
  "\nHas been purchased: YES\nTotal times purchased: " ++ toString ph.length ++
  "\nTotal quantity bought: " ++ toString (ph.foldl (fun s r => s + r.quantity) 0) ++
  "\nLast purchase date: " ++ toString ((ph.head?.map fun r => r.purchaseDate).getD 0) ++
  "\nLast purchase quantity: " ++ toString ((ph.head?.map fun r => r.quantity).getD 0) ++
  "\n\n[SYSTEM ACTION: Confirm that user has purchased this product before and provide details]"

def specificNoBlock (p : Product) : String :=
  "[SYSTEM DATA - SPECIFIC PRODUCT HISTORY]\nProduct: " ++ p.title ++
  "\nHas been purchased: NO\nThis would be their first time buying this item.\n\n[SYSTEM ACTION: Inform user they haven\x27t purchased this product before]"

def specificAskBlock (m : String) : String :=
  "[SYSTEM DATA - SPECIFIC PRODUCT HISTORY]\nNo specific product found in conversation context.\nUser message: \"" ++
  m ++ "\"\n\n[SYSTEM ACTION: Ask user to specify which product they want to check]"

def cartLine (i : Nat) (c : CartItem) : String :=
  toString (i + 1) ++ ". " ++ c.productName ++
  " - Quantity: " ++ toString c.quantity ++
  ", Price: $" ++ toString c.price ++
  ", Total: $" ++ toString c.total

def cartBlock (items : List CartItem) : String :=
  "[SYSTEM DATA - CART MANAGEMENT]\nCurrent cart items: " ++ toString items.length ++
  "\nTotal cart value: $" ++ toString (items.foldl (fun s c => s + c.total) (0 : Rat)) ++
  "\nCart contents:\n" ++
  String.intercalate "\n" (items.enum.map fun ic => cartLine ic.1 ic.2) ++
  "\n\n[SYSTEM ACTION: Provide natural response about cart contents. If user wants to remove/reduce items, ask for confirmation and provide options.]"

def emptyCartBlock : String :=
  "[SYSTEM DATA - CART MANAGEMENT]\nCart is empty.\n\n[SYSTEM ACTION: Inform user that their cart is empty and suggest browsing products.]"

/-- The `systemData` string gathered for a system-action message: the
if/else-if chain of the source with purchase intent checked first. -/
def buildSystemData (db : Db) (u : String) (temp : Option Session) (m : String) (q : Nat) : String :=
  if isPurchaseIntent m then
    match findProductInRecent db temp with
    | some p => purchaseProductBlock p q
    | none => purchaseAskBlock m q
  else if isHistoryInquiry m then
    let recs := (userPurchasesDesc db u).take 10
    if recs.isEmpty then noHistoryBlock else historyBlock recs
  else if isSpecificProductHistoryInquiry m then
    match findProductInRecent db temp with
    | some p =>
      let ph := (userPurchasesDesc db u).filter fun r =>
        includes (toLowerCase r.productName) (toLowerCase p.title)
      if ph.isEmpty then specificNoBlock p else specificYesBlock p ph
    | none => specificAskBlock m
  else if isCartManagement m then
    let items := userCartDesc db u
    if items.isEmpty then emptyCartBlock else cartBlock items
  else ""

def systemInstruction : String :=
  "\n\n[SYSTEM INSTRUCTION: Based on the system data above, provide a natural, conversational response. If this is a purchase intent, only add to cart if the user clearly wants to buy. If this is a history inquiry, provide helpful information about their purchase history. Make the conversation feel natural and human-like. Do not use hardcoded responses - be conversational and natural.]"

/-- `systemContext`: empty unless the message needs a system action. -/
def systemContextOf (db : Db) (u : String) (temp : Option Session) (m : String) (q : Nat) : String :=
  if needsSystemAction m then "\n\n" ++ buildSystemData db u temp m q ++ systemInstruction
  else ""

def ctxLine (msg : StoredMsg) : String :=
  (if msg.role == "user" then "User" else "Assistant") ++ ": " ++ msg.content ++ "\n"

/-- `conversationContext`: for non-new chats with an existing session
with messages, the last 15 messages in chronological order wrapped in
delimiters; otherwise the empty string. -/
def conversationContext (db : Db) (u : String) (isNewChat : Bool) (sid : Option Nat) : String :=
  if isNewChat then ""
  else
    match tempSession db u isNewChat sid with
    | none => ""
    | some s =>
      let recent := (sessionMessagesDesc db s.id).take 15
      if recent.isEmpty then ""
      else
        "\n\n[CONVERSATION CONTEXT - Last 15 messages for context:]\n" ++
        String.join (recent.reverse.map ctxLine) ++ "[END CONTEXT]\n"

def cartEmoji : String := String.singleton (Char.ofNat 0x1F6D2)

/-- The affirmative-reply scan deciding whether the AI response means an
add-to-cart should be executed (`shouldAddToCart` over the lowercased
reply). -/
def shouldAddToCart (reply : String) : Bool :=
  let rt := toLowerCase reply
  includes rt "added to cart" ||
  includes rt "successfully added" ||
  includes rt "cart updated" ||
  includes rt "added to your cart" ||
  includes rt "i\x27ll add" ||
  includes rt "i will add" ||
  includes rt "adding to cart" ||
  includes rt "add another" ||
  includes rt "add to your cart" ||
  includes rt "great choice" ||
  includes rt "perfect" ||
  includes rt "enjoy your shopping" ||
  includes rt "enjoy your new" ||
  includes rt cartEmoji ||
  includes rt "cart" ||
  (includes rt "add" && includes rt "cart") ||
  (includes rt "added" && includes rt "collection") ||
  (includes rt "burgundy" && includes rt "tee") ||
  (includes rt "statement" && includes rt "tee")

/-- The removal/reduction-signal scan over the lowercased AI reply
(`shouldReduceCart`). -/
def shouldReduceCart (reply : String) : Bool :=
  let rt := toLowerCase reply
  includes rt "removed" ||
  includes rt "deleted" ||
  includes rt "reduced" ||
  includes rt "updated" ||
  includes rt "changed" ||
  includes rt "modified" ||
  includes rt "kurangi" ||
  includes rt "hapus" ||
  includes rt "berkurang"

/-- The row built by `prisma.cartItem.create`, with the invariant
total = price * quantity established at creation. -/
def newCartRow (db : Db) (u pid name desc : String) (price : Rat) (q : Nat) : CartItem :=
  { id := db.nextId, userId := u, productId := pid, productName := name,
    description := desc, price := price, quantity := q,
    total := price * (q : Rat), createdAt := db.now }

/-- The `prisma.cartItem.create` performed by the chat pipeline after an
affirmative reply: always a fresh row, with total = price * quantity. -/
def chatCartAdd (db : Db) (u : String) (p : Product) (q : Nat) : Db :=
  { db with
    cart := db.cart ++ [newCartRow db u p.id p.title p.description p.price q],
    nextId := db.nextId + 1,
    now := db.now + 1 }

/-- Deleting the most recently added cart item of the user (the body of
the cart-management branch of `sendChatMessage`). -/
def removeMostRecentCartItem (db : Db) (u : String) : Db :=
  match userCartDesc db u with
  | [] => db
  | item :: _ => { db with cart := db.cart.filter fun c => !(c.id == item.id) }

/-- JavaScript truthiness of `response.content` (`undefined` and the
empty string are falsy). -/
def contentTruthy : Option String → Bool
  | some s => !(s == "")
  | none => false

/-- The cart-mutating if/else-if chain that follows the first AI call:
the purchase-intent add lives inside the `needsSystemAction` branch, the
removal logic in an `else if (isCartManagement && response.content)`
branch.  `r1` is the reply of the first AI call (`none` when no system
action was needed and that call did not happen). -/
def applyReplyActions (db : Db) (u m : String) (temp : Option Session) (q : Nat)
    (r1 : Option String) : Db :=
  if needsSystemAction m then
    if isPurchaseIntent m && contentTruthy r1 then
      if shouldAddToCart (r1.getD "") then
        match findProductInRecent db temp with
        | some p => chatCartAdd db u p q
        | none => db
      else db
    else db
  else if isCartManagement m && contentTruthy r1 then
    if shouldReduceCart (r1.getD "") then removeMostRecentCartItem db u else db
  else db

def productKeywordsForFollowUp : List String :=
  ["t-shirt", "shirt", "phone", "smartphone", "laptop", "computer", "shoes",
   "bag", "watch", "clothes", "electronics"]

/-- The follow-up search-query enhancement: prepend the first product
keyword found in the last 10 messages of the most recently updated
session of the user (with no session, the Prisma `where` clause is
undefined and all messages are scanned). -/
def followUpSearchQuery (db : Db) (u m : String) (isNewChat : Bool) : String :=
  if isFollowUpQuestion m && !isNewChat then
    let msgs :=
      match mostRecentSession db u with
      | some s => (sessionMessagesDesc db s.id).take 10
      | none => (sortDescBy (fun msg : StoredMsg => msg.timestamp) db.messages).take 10
    let conversationText := String.intercalate " " (msgs.map fun msg : StoredMsg => msg.content)
    match productKeywordsForFollowUp.filter
        (fun k => includes (toLowerCase conversationText) (toLowerCase k)) with
    | k :: _ => k ++ " " ++ m
    | [] => m
  else m

def formatPrice (p : Product) : String :=
  toString p.price ++ " " ++ p.currencyCode

def productLine (i : Nat) (p : Product) : String :=
  toString (i + 1) ++ ". **" ++ p.title ++ "** - " ++ formatPrice p

def enhancedSearchMessage (m ctx : String) (results : List Product) : String :=
  m ++ ctx ++ "\n\n[PRODUCT SEARCH RESULTS - " ++ toString results.length ++
  " products found:]\n" ++
  (if results.isEmpty then "No products found matching your criteria."
   else String.intercalate "\n" (results.enum.map fun ip => productLine ip.1 ip.2)) ++
  "\n\n[SYSTEM: Based on the conversation context above and the product search results, provide a natural, contextual response. If this is a follow-up question like \"is there any other option\", acknowledge what was previously discussed and offer relevant alternatives or additional information about the products shown.]"

def fallbackMessage (m ctx : String) : String :=
  m ++ ctx ++ "\n\n[SYSTEM: Shopify search temporarily unavailable, provide general assistance based on conversation context]"

/-- The plain chat prompt: raw message, conversation context, plus the
context-usage instruction only when context exists. -/
def plainContextMessage (m ctx : String) : String :=
  m ++ ctx ++
  (if ctx == "" then ""
   else "\n\n[SYSTEM: Use the conversation context above to provide relevant and contextual responses. Remember what the user was previously discussing.]")

/-- The AI call whose reply becomes the returned message: the product
search branch (with catalog fallback) or the plain-chat branch.  Also
yields the `shopifyProducts` attached to the assistant message. -/
def finalStage (env : Env) (db : Db) (u m ctx : String) (isNewChat : Bool) :
    Except JsError (String × List Product) :=
  if isProductSearch m then
    match env.catalog (followUpSearchQuery db u m isNewChat) with
    | .ok results => (env.ai (enhancedSearchMessage m ctx results)).map fun r => (r, results)
    | .error _ => (env.ai (fallbackMessage m ctx)).map fun r => (r, [])
  else
    (env.ai (plainContextMessage m ctx)).map fun r => (r, [])

/-- The catch-block mapping from the underlying error to the user-facing
message string. -/
def errorUserMessage (e : JsError) : String :=
  if e.code == some "UND_ERR_CONNECT_TIMEOUT" || e.name == some "AbortError" then
    "The request timed out. The AI service might be busy. Please try again."
  else if includes e.message "fetch failed" then
    "Unable to connect to the AI service. Please check your internet connection and try again."
  else if includes e.message "401" || includes e.message "Unauthorized" then
    "Authentication error. Please try logging out and back in."
  else if includes e.message "429" || includes e.message "rate limit" then
    "Too many requests. Please wait a moment before trying again."
  else
    "Sorry, I\x27m having trouble connecting right now. Please try again in a moment."

/-- `prisma.chatSession.create({ data: { userId } })`: a session with a
fresh id. -/
def createSession (db : Db) (u : String) : Session × Db :=
  let s : Session := { id := db.nextId, userId := u, updatedAt := db.now }
  (s, { db with sessions := db.sessions ++ [s], nextId := db.nextId + 1, now := db.now + 1 })

/-- Session resolution of `sendChatMessage`: always create on new chat;
by (id, userId) with create-on-miss when a session id is given; else the
most recently updated session of the user or a fresh one. -/
def resolveSession (db : Db) (u : String) (isNewChat : Bool) (sid : Option Nat) :
    Session × Db :=
  if isNewChat then createSession db u
  else
    match sid with
    | some i =>
      match findSessionById db u i with
      | some s => (s, db)
      | none => createSession db u
    | none =>
      match mostRecentSession db u with
      | some s => (s, db)
      | none => createSession db u

/-- Saving the user and assistant messages; the source wraps both writes
in a try/catch and continues on failure, modelled by `env.saveFails`. -/
def persistTurn (env : Env) (db : Db) (sess : Session) (m reply : String)
    (prods : List Product) : Db :=
  if env.saveFails then db
  else
    { db with
      messages := db.messages ++
        [{ sessionId := sess.id, role := "user", content := m, products := [],
           timestamp := db.now },
         { sessionId := sess.id, role := "assistant", content := reply,
           products := prods, timestamp := db.now + 1 }],
      now := db.now + 2 }

/-- `prisma.chatSession.update` of the session timestamp. -/
def touchSession (db : Db) (sid : Nat) : Db :=
  { db with
    sessions := db.sessions.map fun s =>
      if s.id == sid then { s with updatedAt := db.now } else s,
    now := db.now + 1 }

/-- The chat orchestrator `sendChatMessage(userId, message, isNewChat,
sessionId)`: classify, gather system data and conversation context, call
the AI (twice when a system action is needed), interpret the first reply
into a cart mutation, resolve the session, persist both turns, touch the
session, and return the payload; any AI failure aborts the turn with the
user-facing error string. -/
def sendChatMessage (env : Env) (db : Db) (u m : String) (isNewChat : Bool)
    (sid : Option Nat) : Db × Except String Payload :=
  let q := requestedQuantity m
  let temp := tempSession db u isNewChat sid
  let ctx := conversationContext db u isNewChat sid
  let stage1 : Except JsError (Option String) :=
    if needsSystemAction m then
      (env.ai (m ++ ctx ++ systemContextOf db u temp m q)).map some
    else .ok none
  match stage1 with
  | .error e => (db, .error (errorUserMessage e))
  | .ok r1 =>
    let db1 := applyReplyActions db u m temp q r1
    match finalStage env db1 u m ctx isNewChat with
    | .error e => (db1, .error (errorUserMessage e))
    | .ok (reply, prods) =>
      let (sess, db2) := resolveSession db1 u isNewChat sid
      let db3 := persistTurn env db2 sess m reply prods
      let db4 := touchSession db3 sess.id
      (db4, .ok { message := reply, sessionId := sess.id, timestamp := db4.now,
                  isNewSession := isNewChat, shopifyProducts := prods })

/-- The `POST /cart/add` route of `routes.ts`: inside a transaction,
increment the quantity of an existing (userId, productId) row and
recompute total from the request price, or create a fresh row. -/
def cartAddRoute (db : Db) (u pid name desc : String) (price : Rat) (q : Nat) : Db :=
  match db.cart.find? (fun c => c.userId == u && c.productId == pid) with
  | some existing =>
    let newQuantity := existing.quantity + q
    let newTotal := price * (newQuantity : Rat)
    { db with
      cart := db.cart.map fun c =>
        if c.id == existing.id then { c with quantity := newQuantity, total := newTotal }
        else c }
  | none =>
    { db with
      cart := db.cart ++ [newCartRow db u pid name desc price q],
      nextId := db.nextId + 1,
      now := db.now + 1 }

/-- A sample catalog product used by the concrete scenarios below. -/
def tee : Product :=
  { id := "p1", handle := "tee", title := "Tee", description := "A tee",
    price := 10, currencyCode := "USD", imageUrl := "img" }

/-- One cart row for user u1 holding one `tee`. -/
def teeRow : CartItem :=
  { id := 7, userId := "u1", productId := "p1", productName := "Tee",
    description := "A tee", price := 10, quantity := 1, total := 10, createdAt := 3 }

/-- An environment whose AI always answers with a removal signal. -/
def envRemoved : Env :=
  { ai := fun _ => .ok "removed", catalog := fun _ => .ok [], saveFails := false }

/-- An environment whose AI always answers with an add-to-cart signal. -/
def envAdded : Env :=
  { ai := fun _ => .ok "added to cart", catalog := fun _ => .ok [], saveFails := false }

/-- An environment whose AI echoes its prompt. -/
def envEcho : Env :=
  { ai := fun p => .ok p, catalog := fun _ => .ok [], saveFails := false }

/-- A store with one session of u1 and one `tee` already in the cart. -/
def dbCart : Db :=
  { sessions := [{ id := 1, userId := "u1", updatedAt := 5 }],
    messages := [],
    cart := [teeRow],
    purchases := [], nextId := 8, now := 20 }

/-- `dbCart` plus one assistant message carrying `tee`. -/
def dbFocus : Db :=
  { dbCart with
    messages := [{ sessionId := 1, role := "assistant", content := "here",
                   products := [tee], timestamp := 1 }] }

/-- A session whose only product-bearing assistant message is buried
under ten newer user messages. -/
def dbBuried : Db :=
  { sessions := [{ id := 1, userId := "u1", updatedAt := 5 }],
    messages :=
      { sessionId := 1, role := "assistant", content := "here",
        products := [tee], timestamp := 1 } ::
      (List.range 10).map fun i =>
        { sessionId := 1, role := "user", content := "chat", products := [],
          timestamp := i + 2 },
    cart := [], purchases := [], nextId := 8, now := 20 }

/-- A store with a single session of u1 and nothing else. -/
def dbOneSession : Db :=
  { sessions := [{ id := 1, userId := "u1", updatedAt := 5 }],
    messages := [], cart := [], purchases := [], nextId := 2, now := 10 }

/-- An empty store. -/
def dbEmpty : Db :=
  { sessions := [], messages := [], cart := [], purchases := [], nextId := 1, now := 0 }

/-- A store with two sessions of u1 and one of u2, used by the
session-resolution scenario. -/
def c5db : Db :=
  { sessions := [{ id := 1, userId := "u1", updatedAt := 5 },
                 { id := 2, userId := "u1", updatedAt := 7 },
                 { id := 3, userId := "u2", updatedAt := 9 }],
    messages := [], cart := [], purchases := [], nextId := 4, now := 30 }

/-- A store with two purchases of u1 (stored out of date order) and one
of u2, used by the purchase-history scenario. -/
def c8db : Db :=
  { sessions := [], messages := [], cart := [],
    purchases :=
      [{ userId := "u1", productName := "Tee", price := 10, quantity := 1, purchaseDate := 2 },
       { userId := "u1", productName := "Cap", price := 5, quantity := 2, purchaseDate := 9 },
       { userId := "u2", productName := "Bag", price := 7, quantity := 1, purchaseDate := 5 }],
    nextId := 1, now := 0 }

/-- An environment whose AI always fails with a 401 error. -/
def envAuthFail : Env :=
  { ai := fun _ => .error { code := none, name := none, message := "401 Unauthorized" },
    catalog := fun _ => .ok [], saveFails := false }

/-- An echoing AI with a storage layer that fails every message save. -/
def envEchoNoSave : Env :=
  { ai := fun p => .ok p, catalog := fun _ => .ok [], saveFails := true }

theorem mem_insertDescBy {α : Type} (key : α → Nat) (a x : α) (l : List α) :
    x ∈ insertDescBy key a l ↔ x = a ∨ x ∈ l := by
  induction l with
  | nil => simp [insertDescBy]
  | cons b t ih =>
    by_cases h : key b > key a
    · simp [insertDescBy, h, ih]
      tauto
    · simp [insertDescBy, h]

theorem pairwise_insertDescBy {α : Type} (key : α → Nat) (a : α) (l : List α)
    (h : List.Pairwise (fun x y => key y ≤ key x) l) :
    List.Pairwise (fun x y => key y ≤ key x) (insertDescBy key a l) := by
  induction l with
  | nil => simp [insertDescBy]
  | cons b t ih =>
    rcases List.pairwise_cons.mp h with ⟨hb, ht⟩
    by_cases hgt : key b > key a
    · simp only [insertDescBy, if_pos hgt]
      refine List.pairwise_cons.mpr ⟨?_, ih ht⟩
      intro x hx
      rcases (mem_insertDescBy key a x t).mp hx with rfl | hxt
      · exact Nat.le_of_lt hgt
      · exact hb x hxt
    · simp only [insertDescBy, if_neg hgt]
      refine List.pairwise_cons.mpr ⟨?_, h⟩
      intro x hx
      rcases List.mem_cons.mp hx with rfl | hxt
      · exact Nat.le_of_not_lt hgt
      · exact Nat.le_trans (hb x hxt) (Nat.le_of_not_lt hgt)

theorem pairwise_sortDescBy {α : Type} (key : α → Nat) (l : List α) :
    List.Pairwise (fun x y => key y ≤ key x) (sortDescBy key l) := by
  induction l with
  | nil => simp [sortDescBy]
  | cons a t ih => exact pairwise_insertDescBy key a (sortDescBy key t) ih

theorem mem_sortDescBy {α : Type} (key : α → Nat) (x : α) (l : List α) :
    x ∈ sortDescBy key l ↔ x ∈ l := by
  induction l with
  | nil => simp [sortDescBy]
  | cons a t ih =>
    simp [sortDescBy, mem_insertDescBy, ih]

theorem length_insertDescBy {α : Type} (key : α → Nat) (a : α) (l : List α) :
    (insertDescBy key a l).length = l.length + 1 := by
  induction l with
  | nil => simp [insertDescBy]
  | cons b t ih =>
    by_cases h : key b > key a
    · simp [insertDescBy, h, ih]
    · simp [insertDescBy, h]

theorem length_sortDescBy {α : Type} (key : α → Nat) (l : List α) :
    (sortDescBy key l).length = l.length := by
  induction l with
  | nil => simp [sortDescBy]
  | cons a t ih => simp [sortDescBy, length_insertDescBy, ih]

theorem hasSub_append_left (sub s t : List Char) (h : hasSub sub t = true) :
    hasSub sub (s ++ t) = true := by
  induction s with
  | nil => simpa using h
  | cons c rest ih =>
    simp only [List.cons_append, hasSub, Bool.or_eq_true]
    exact Or.inr ih

theorem isPrefixOf_self_append (l t : List Char) : l.isPrefixOf (l ++ t) = true := by
  induction l with
  | nil => simp [List.isPrefixOf]
  | cons c rest ih => simp [List.isPrefixOf, ih]

theorem hasSub_self_append (sub t : List Char) : hasSub sub (sub ++ t) = true := by
  cases sub with
  | nil => cases t <;> simp [hasSub, List.isEmpty, List.isPrefixOf]
  | cons c rest =>
    simp only [List.cons_append, hasSub, Bool.or_eq_true]
    exact Or.inl (by simp [isPrefixOf_self_append (c :: rest) t])

/-- A string ends with `sub`, hence includes it. -/
theorem includes_append_right (s sub : String) : includes (s ++ sub) sub = true := by
  unfold includes
  rw [String.data_append]
  have h : hasSub sub.data (sub.data ++ []) = true := hasSub_self_append sub.data []
  rw [List.append_nil] at h
  exact hasSub_append_left _ _ _ h

/-- A string includes any substring of its suffix. -/
theorem includes_append_of_includes (s t sub : String) (h : includes t sub = true) :
    includes (s ++ t) sub = true := by
  unfold includes at h ⊢
  rw [String.data_append]
  exact hasSub_append_left _ _ _ h

/-- C7: the quantity regex yields 3 for a number followed by a unit word
as in the message add 3 pieces to cart, and defaults to 1 for a message
with no quantity expression such as add to cart. -/
theorem C7_quantity_extraction :
    requestedQuantity "add 3 pieces to cart" = 3 ∧
    requestedQuantity "add to cart" = 1 := by
  decide

/-- C1: a cart-management message whose AI reply carries a removal signal
and whose user has a non-empty cart does NOT lose its most recent cart
item: because every cart-management message also satisfies
needsSystemAction, the removal branch sits in unreachable else-if code
and the cart is returned unchanged. -/
theorem C1_cart_management_removal_never_executes :
    isCartManagement "remove" = true ∧
    needsSystemAction "remove" = true ∧
    shouldReduceCart "removed" = true ∧
    dbCart.cart ≠ [] ∧
    (sendChatMessage envRemoved dbCart "u1" "remove" false none).1.cart = dbCart.cart := by
  decide

/-- C2 counterexample: with product p1 already in the cart (quantity 1,
total 10), a chat turn whose AI reply confirms the purchase creates a
second (u1, p1) row instead of incrementing the first, so the cart holds
two rows of quantity 1 rather than the single quantity-2 total-20 row the
claim demands. -/
theorem C2_chat_add_duplicates_row :
    isPurchaseIntent "add it" = true ∧
    (dbFocus.cart.filter fun c => c.userId == "u1" && c.productId == "p1").length = 1 ∧
    ((sendChatMessage envAdded dbFocus "u1" "add it" false (some 1)).1.cart.filter
        fun c => c.userId == "u1" && c.productId == "p1").length = 2 ∧
    ¬ ((sendChatMessage envAdded dbFocus "u1" "add it" false (some 1)).1.cart.filter
        fun c => c.userId == "u1" && c.productId == "p1").map
          (fun c => (c.quantity, c.total)) = [(2, (20 : Rat))] := by
  decide

/-- C3 counterexample: the focus-product scan reads only the 10 most
recent messages, so a session whose single product-bearing assistant
message is older than ten newer messages resolves to none even though a
prior assistant message of the session does carry a product. -/
theorem C3_focus_scan_misses_old_product :
    (dbBuried.messages.any fun msg => msg.role == "assistant" && !msg.products.isEmpty) = true ∧
    findProductInRecent dbBuried (some { id := 1, userId := "u1", updatedAt := 5 }) = none := by
  decide

/-- C4 counterexample: an AI failure whose message is fetch failed falls
into none of the claim patterns (timeout, authorization, rate limit), yet
yields the connection-specific message rather than the generic apology the
claim assigns to every other failure. -/
theorem C4_fetch_failed_not_generic_apology :
    errorUserMessage { code := none, name := none, message := "fetch failed" } =
      "Unable to connect to the AI service. Please check your internet connection and try again." ∧
    errorUserMessage { code := none, name := none, message := "fetch failed" } ≠
      "Sorry, I\x27m having trouble connecting right now. Please try again in a moment." ∧
    includes (errorUserMessage { code := none, name := none, message := "fetch failed" })
      "Sorry" = false ∧
    ({ code := none, name := none, message := "fetch failed" } : JsError).code ≠
      some "UND_ERR_CONNECT_TIMEOUT" ∧
    ({ code := none, name := none, message := "fetch failed" } : JsError).name ≠
      some "AbortError" ∧
    includes "fetch failed" "401" = false ∧
    includes "fetch failed" "Unauthorized" = false ∧
    includes "fetch failed" "429" = false ∧
    includes "fetch failed" "rate limit" = false := by
  decide

set_option maxRecDepth 8192 in
/-- C8 counterexample: the message order history is classified as a
purchase-history query, yet because it also matches the purchase
indicator order and purchase intent is checked first, the assembled
system-data block is the purchase-intent block, not a purchase-history
listing. -/
theorem C8_order_history_gets_purchase_block :
    isHistoryInquiry "order history" = true ∧
    buildSystemData dbEmpty "u1" none "order history" 1 =
      purchaseAskBlock "order history" 1 ∧
    includes (buildSystemData dbEmpty "u1" none "order history" 1)
      "PURCHASE HISTORY" = false ∧
    buildSystemData dbEmpty "u1" none "order history" 1 ≠ noHistoryBlock := by
  decide

/-- C10: the isNewSession field of every success payload equals the
isNewChat argument verbatim, even when a fresh session was created
because the supplied session id matched none of the user, so a caller
cannot detect a stale session id from this flag. -/
theorem C10_isNewSession_equals_input (env : Env) (db : Db) (u m : String)
    (isNewChat : Bool) (sid : Option Nat) (pay : Payload)
    (h : (sendChatMessage env db u m isNewChat sid).2 = .ok pay) :
    pay.isNewSession = isNewChat := by
  unfold sendChatMessage at h
  dsimp only at h
  repeat' split at h
  all_goals first
    | (dsimp only at h; simp only [Except.ok.injEq] at h; subst h; rfl)
    | simp at h

/-- C10 witness: a non-new chat with the stale session id 99 creates a
fresh session (the session count grows), yet the payload still reports
isNewSession = false. -/
theorem C10_isNewSession_witness :
    (sendChatMessage envEcho dbOneSession "u1" "hello" false (some 99)).2 =
      .ok { message := "hello", sessionId := 2, timestamp := 14,
            isNewSession := false, shopifyProducts := [] } ∧
    (sendChatMessage envEcho dbOneSession "u1" "hello" false (some 99)).1.sessions.length =
      dbOneSession.sessions.length + 1 ∧
    ({ message := "hello", sessionId := 2, timestamp := 14,
       isNewSession := false, shopifyProducts := [] } : Payload).isNewSession = false := by
  refine ⟨by rfl, by decide, ?_⟩
  exact C10_isNewSession_equals_input envEcho dbOneSession "u1" "hello" false (some 99) _
    (by rfl)

theorem mostRecent_ne_none (s : Session) (rest : List Session) :
    mostRecent (s :: rest) ≠ none := by
  simp only [mostRecent]
  split
  · simp
  · split <;> simp

theorem mostRecent_mem (l : List Session) :
    ∀ s0, mostRecent l = some s0 → s0 ∈ l := by
  induction l with
  | nil => intro s0 h; simp [mostRecent] at h
  | cons s rest ih =>
    intro s0 h
    simp only [mostRecent] at h
    split at h
    · injection h with h
      subst h
      exact List.mem_cons_self _ _
    · next t heq =>
        split at h
        · injection h with h
          subst h
          exact List.mem_cons_of_mem _ (ih _ heq)
        · injection h with h
          subst h
          exact List.mem_cons_self _ _

theorem mostRecent_max (l : List Session) :
    ∀ s0, mostRecent l = some s0 → ∀ s ∈ l, s.updatedAt ≤ s0.updatedAt := by
  induction l with
  | nil => intro s0 h; simp [mostRecent] at h
  | cons s rest ih =>
    intro s0 h x hx
    simp only [mostRecent] at h
    split at h
    · next heq =>
        injection h with h
        subst h
        have hrest : rest = [] := by
          cases rest with
          | nil => rfl
          | cons a b => exact absurd heq (mostRecent_ne_none a b)
        subst hrest
        simp only [List.mem_singleton] at hx
        subst hx
        exact Nat.le_refl _
    · next t heq =>
        have hmax := ih t heq
        split at h
        · next hgt =>
            injection h with h
            subst h
            rcases List.mem_cons.mp hx with rfl | hxr
            · omega
            · exact hmax x hxr
        · next hgt =>
            injection h with h
            subst h
            rcases List.mem_cons.mp hx with rfl | hxr
            · exact Nat.le_refl _
            · have := hmax x hxr
              omega

/-- C5: session resolution.  When the store only holds sessions with ids
below the fresh-id counter: a new chat always creates a session whose id
differs from every prior session id of the user; a given session id is
looked up by (id, userId), reusing the match without touching the store,
and creating a fresh session exactly when no match exists; with no
session id the most recently updated session of the user is reused, or a
fresh one is created when the user has none. -/
theorem C5_session_resolution (db : Db) (u : String) (sid : Option Nat)
    (hinv : ∀ s ∈ db.sessions, s.id < db.nextId) :
    (∀ s ∈ db.sessions, s.userId = u → s.id ≠ (resolveSession db u true sid).1.id) ∧
    (∀ i s0, findSessionById db u i = some s0 →
       resolveSession db u false (some i) = (s0, db) ∧
       s0 ∈ db.sessions ∧ s0.id = i ∧ s0.userId = u) ∧
    (∀ i, findSessionById db u i = none →
       (∀ s ∈ db.sessions, ¬(s.id = i ∧ s.userId = u)) ∧
       (resolveSession db u false (some i)).2.sessions =
         db.sessions ++ [(resolveSession db u false (some i)).1] ∧
       (∀ s ∈ db.sessions, s.id ≠ (resolveSession db u false (some i)).1.id)) ∧
    (∀ s0, mostRecentSession db u = some s0 →
       resolveSession db u false none = (s0, db) ∧
       s0 ∈ db.sessions ∧ s0.userId = u ∧
       (∀ s ∈ db.sessions, s.userId = u → s.updatedAt ≤ s0.updatedAt)) ∧
    (mostRecentSession db u = none →
       db.sessions.filter (fun s => s.userId == u) = [] ∧
       (resolveSession db u false none).2.sessions =
         db.sessions ++ [(resolveSession db u false none).1]) := by
  refine ⟨?_, ?_, ?_, ?_, ?_⟩
  · intro s hs _
    have hid : (resolveSession db u true sid).1.id = db.nextId := rfl
    rw [hid]
    exact Nat.ne_of_lt (hinv s hs)
  · intro i s0 h
    have hmem := List.mem_of_find?_eq_some h
    have hp := List.find?_some h
    rw [Bool.and_eq_true, beq_iff_eq, beq_iff_eq] at hp
    refine ⟨?_, hmem, hp.1, hp.2⟩
    simp [resolveSession, findSessionById] at h ⊢
    rw [h]
  · intro i h
    have hnone := List.find?_eq_none.mp h
    refine ⟨?_, ?_, ?_⟩
    · intro s hs hc
      have := hnone s hs
      simp [hc.1, hc.2] at this
    · simp [resolveSession, h, createSession]
    · intro s hs
      have hid : (resolveSession db u false (some i)).1.id = db.nextId := by
        simp [resolveSession, h, createSession]
      rw [hid]
      exact Nat.ne_of_lt (hinv s hs)
  · intro s0 h
    have h2 := h
    unfold mostRecentSession at h2
    have hmem := mostRecent_mem _ _ h2
    rw [List.mem_filter] at hmem
    refine ⟨by simp only [resolveSession]; rw [h]; rfl, hmem.1,
      beq_iff_eq.mp hmem.2, ?_⟩
    intro s hs hu
    exact mostRecent_max _ _ h2 s (List.mem_filter.mpr ⟨hs, beq_iff_eq.mpr hu⟩)
  · intro h
    have h2 := h
    unfold mostRecentSession at h2
    constructor
    · cases hf : db.sessions.filter (fun s => s.userId == u) with
      | nil => rfl
      | cons a b =>
        rw [hf] at h2
        exact absurd h2 (mostRecent_ne_none a b)
    · simp only [resolveSession]
      rw [h]
      rfl

/-- C5 witness: the session-resolution contract instantiated on a store
holding sessions 1 and 2 of u1 and session 3 of u2. -/
theorem C5_session_resolution_witness :
    (∀ s ∈ c5db.sessions, s.id < c5db.nextId) ∧
    ((∀ s ∈ c5db.sessions, s.userId = "u1" →
        s.id ≠ (resolveSession c5db "u1" true (some 2)).1.id) ∧
     (∀ i s0, findSessionById c5db "u1" i = some s0 →
        resolveSession c5db "u1" false (some i) = (s0, c5db) ∧
        s0 ∈ c5db.sessions ∧ s0.id = i ∧ s0.userId = "u1") ∧
     (∀ i, findSessionById c5db "u1" i = none →
        (∀ s ∈ c5db.sessions, ¬(s.id = i ∧ s.userId = "u1")) ∧
        (resolveSession c5db "u1" false (some i)).2.sessions =
          c5db.sessions ++ [(resolveSession c5db "u1" false (some i)).1] ∧
        (∀ s ∈ c5db.sessions, s.id ≠ (resolveSession c5db "u1" false (some i)).1.id)) ∧
     (∀ s0, mostRecentSession c5db "u1" = some s0 →
        resolveSession c5db "u1" false none = (s0, c5db) ∧
        s0 ∈ c5db.sessions ∧ s0.userId = "u1" ∧
        (∀ s ∈ c5db.sessions, s.userId = "u1" → s.updatedAt ≤ s0.updatedAt)) ∧
     (mostRecentSession c5db "u1" = none →
        c5db.sessions.filter (fun s => s.userId == "u1") = [] ∧
        (resolveSession c5db "u1" false none).2.sessions =
          c5db.sessions ++ [(resolveSession c5db "u1" false none).1])) :=
  ⟨by decide, C5_session_resolution c5db "u1" (some 2) (by decide)⟩

/-- C2 amended: the one-row-per-(userId, productId) upsert invariant
holds for the POST /cart/add route: on a cart with ids below the
fresh-id counter and no row for the product yet, adding the product
priced 10.0 with quantity 1 twice yields exactly one matching row with
quantity 2 and total 20.0 (the chat-pipeline add does not share this
behaviour; see the counterexample). -/
theorem C2_route_upsert_idempotent_total (db : Db) (u pid name desc : String)
    (hid : ∀ c ∈ db.cart, c.id < db.nextId)
    (habs : ∀ c ∈ db.cart, ¬(c.userId = u ∧ c.productId = pid)) :
    ((cartAddRoute (cartAddRoute db u pid name desc 10 1) u pid name desc 10 1).cart.filter
        (fun c => c.userId == u && c.productId == pid)).map
          (fun c => (c.quantity, c.total)) = [(2, (20 : Rat))] ∧
    (cartAddRoute (cartAddRoute db u pid name desc 10 1) u pid name desc 10 1).cart.length =
      db.cart.length + 1 := by
  have hpred : ∀ c : CartItem,
      ((c.userId == u && c.productId == pid) = true) ↔ (c.userId = u ∧ c.productId = pid) := by
    intro c
    rw [Bool.and_eq_true, beq_iff_eq, beq_iff_eq]
  have hfind : db.cart.find? (fun c => c.userId == u && c.productId == pid) = none := by
    rw [List.find?_eq_none]
    intro c hc hcp
    exact habs c hc ((hpred c).mp hcp)
  have h1 : cartAddRoute db u pid name desc 10 1 =
      { db with
        cart := db.cart ++ [newCartRow db u pid name desc 10 1],
        nextId := db.nextId + 1, now := db.now + 1 } := by
    simp [cartAddRoute, hfind]
  rw [h1]
  have hfind2 : (db.cart ++ [newCartRow db u pid name desc 10 1]).find?
        (fun c => c.userId == u && c.productId == pid) =
      some (newCartRow db u pid name desc 10 1) := by
    rw [List.find?_append, hfind]
    simp [List.find?, newCartRow]
  have hcart2 : (cartAddRoute
      { db with
        cart := db.cart ++ [newCartRow db u pid name desc 10 1],
        nextId := db.nextId + 1, now := db.now + 1 } u pid name desc 10 1).cart =
      db.cart ++
        [{ id := db.nextId, userId := u, productId := pid, productName := name,
           description := desc, price := 10, quantity := 2, total := (20 : Rat),
           createdAt := db.now }] := by
    simp only [cartAddRoute]
    rw [hfind2]
    dsimp only
    rw [List.map_append]
    congr 1
    · have hfix : ∀ c ∈ db.cart,
          (if c.id == (newCartRow db u pid name desc 10 1).id then
            { c with quantity := (newCartRow db u pid name desc 10 1).quantity + 1,
                     total := 10 * (((newCartRow db u pid name desc 10 1).quantity + 1 : Nat) : Rat) }
          else c) = c := by
        intro c hc
        have hne : c.id ≠ db.nextId := Nat.ne_of_lt (hid c hc)
        have hfalse : (c.id == (newCartRow db u pid name desc 10 1).id) = false := by
          simp [newCartRow, hne]
        rw [hfalse]
        simp
      calc List.map _ db.cart = List.map id db.cart := List.map_congr_left (by
              intro c hc
              exact hfix c hc)
        _ = db.cart := List.map_id db.cart
    · simp [newCartRow]
      norm_num
  rw [hcart2]
  constructor
  · rw [List.filter_append]
    have hnil : db.cart.filter (fun c => c.userId == u && c.productId == pid) = [] := by
      rw [List.filter_eq_nil_iff]
      intro c hc hcp
      exact habs c hc ((hpred c).mp hcp)
    rw [hnil]
    simp
  · simp

/-- C2 witness: the route upsert run twice from an empty cart. -/
theorem C2_route_upsert_witness :
    (∀ c ∈ dbEmpty.cart, c.id < dbEmpty.nextId) ∧
    (∀ c ∈ dbEmpty.cart, ¬(c.userId = "u1" ∧ c.productId = "p1")) ∧
    ((cartAddRoute (cartAddRoute dbEmpty "u1" "p1" "Tee" "A tee" 10 1)
        "u1" "p1" "Tee" "A tee" 10 1).cart.filter
        (fun c => c.userId == "u1" && c.productId == "p1")).map
          (fun c => (c.quantity, c.total)) = [(2, (20 : Rat))] ∧
    (cartAddRoute (cartAddRoute dbEmpty "u1" "p1" "Tee" "A tee" 10 1)
        "u1" "p1" "Tee" "A tee" 10 1).cart.length = dbEmpty.cart.length + 1 :=
  ⟨by decide, by decide,
   (C2_route_upsert_idempotent_total dbEmpty "u1" "p1" "Tee" "A tee"
     (by decide) (by decide)).1,
   (C2_route_upsert_idempotent_total dbEmpty "u1" "p1" "Tee" "A tee"
     (by decide) (by decide)).2⟩

/-- C8 amended: for every message classified as a purchase-history query
that is not also a purchase intent (purchase intent is checked first in
the branch chain), the system-data block renders the first 10 records of
the date-descending purchase history of the user: at most 10 records,
newest first, all belonging to the user, with the explicit no-history
block exactly when the user has no purchase records. -/
theorem C8_history_block_at_most_10_newest_first (db : Db) (u : String)
    (temp : Option Session) (m : String) (q : Nat)
    (hh : isHistoryInquiry m = true) (hp : isPurchaseIntent m = false) :
    buildSystemData db u temp m q =
      (if ((userPurchasesDesc db u).take 10).isEmpty then noHistoryBlock
       else historyBlock ((userPurchasesDesc db u).take 10)) ∧
    ((userPurchasesDesc db u).take 10).length ≤ 10 ∧
    List.Pairwise (fun a b => b.purchaseDate ≤ a.purchaseDate)
      ((userPurchasesDesc db u).take 10) ∧
    (∀ r ∈ (userPurchasesDesc db u).take 10, r.userId = u) ∧
    (db.purchases.filter (fun p => p.userId == u) = [] →
      buildSystemData db u temp m q = noHistoryBlock) ∧
    (db.purchases.filter (fun p => p.userId == u) ≠ [] →
      (userPurchasesDesc db u).take 10 ≠ []) := by
  have hblock : buildSystemData db u temp m q =
      (if ((userPurchasesDesc db u).take 10).isEmpty then noHistoryBlock
       else historyBlock ((userPurchasesDesc db u).take 10)) := by
    simp [buildSystemData, hh, hp]
  refine ⟨hblock, ?_, ?_, ?_, ?_, ?_⟩
  · rw [List.length_take]
    exact min_le_left _ _
  · exact List.Pairwise.sublist (List.take_sublist 10 _)
      (pairwise_sortDescBy (fun p : PurchaseRecord => p.purchaseDate) _)
  · intro r hr
    have hmem : r ∈ userPurchasesDesc db u := List.take_subset 10 _ hr
    rw [userPurchasesDesc, mem_sortDescBy, List.mem_filter] at hmem
    exact beq_iff_eq.mp hmem.2
  · intro hnil
    rw [hblock]
    have : userPurchasesDesc db u = [] := by
      rw [userPurchasesDesc, hnil]
      rfl
    rw [this]
    rfl
  · intro hne
    have hlen : 0 < (db.purchases.filter (fun p => p.userId == u)).length :=
      List.length_pos.mpr hne
    have hlen2 : 0 < (userPurchasesDesc db u).length := by
      rw [userPurchasesDesc, length_sortDescBy]
      exact hlen
    have : 0 < ((userPurchasesDesc db u).take 10).length := by
      rw [List.length_take]
      omega
    exact List.length_pos.mp this

/-- C8 witness: the purchase-history block over a store holding two
purchases of u1 stored out of date order. -/
theorem C8_history_block_witness :
    isHistoryInquiry "purchase history" = true ∧
    isPurchaseIntent "purchase history" = false ∧
    (buildSystemData c8db "u1" none "purchase history" 1 =
      (if ((userPurchasesDesc c8db "u1").take 10).isEmpty then noHistoryBlock
       else historyBlock ((userPurchasesDesc c8db "u1").take 10)) ∧
    ((userPurchasesDesc c8db "u1").take 10).length <= 10 ∧
    List.Pairwise (fun a b => b.purchaseDate <= a.purchaseDate)
      ((userPurchasesDesc c8db "u1").take 10) ∧
    (∀ r ∈ (userPurchasesDesc c8db "u1").take 10, r.userId = "u1") ∧
    (c8db.purchases.filter (fun p => p.userId == "u1") = [] →
      buildSystemData c8db "u1" none "purchase history" 1 = noHistoryBlock) ∧
    (c8db.purchases.filter (fun p => p.userId == "u1") ≠ [] →
      (userPurchasesDesc c8db "u1").take 10 ≠ [])) ∧
    (userPurchasesDesc c8db "u1").take 10 =
      [{ userId := "u1", productName := "Cap", price := 5, quantity := 2, purchaseDate := 9 },
       { userId := "u1", productName := "Tee", price := 10, quantity := 1, purchaseDate := 2 }] :=
  ⟨by decide, by decide,
   C8_history_block_at_most_10_newest_first c8db "u1" none "purchase history" 1
     (by decide) (by decide),
   by decide⟩

/-- C3 amended: when no assistant message among the 10 most recent
messages of the resolved session carries a product (the scan window of
the source), the focus-product resolution yields none; for a
purchase-intent message the system-data block is then the ask-the-user
block, whose text instructs asking the user to specify the product, and
the turn leaves the cart unchanged, creating no CartItem. -/
theorem C3_focus_none_asks_and_no_cart_item (env : Env) (db : Db) (u m : String)
    (isNewChat : Bool) (sid : Option Nat)
    (hpi : isPurchaseIntent m = true)
    (hwin : ∀ s0, tempSession db u isNewChat sid = some s0 →
       ∀ msg ∈ (sessionMessagesDesc db s0.id).take 10,
         msg.role = "assistant" → msg.products = []) :
    findProductInRecent db (tempSession db u isNewChat sid) = none ∧
    buildSystemData db u (tempSession db u isNewChat sid) m (requestedQuantity m) =
      purchaseAskBlock m (requestedQuantity m) ∧
    includes (purchaseAskBlock m (requestedQuantity m))
      "Ask user to specify which product they want to purchase" = true ∧
    (sendChatMessage env db u m isNewChat sid).1.cart = db.cart := by
  have hfocus : findProductInRecent db (tempSession db u isNewChat sid) = none := by
    cases htemp : tempSession db u isNewChat sid with
    | none => rfl
    | some s0 =>
      unfold findProductInRecent
      have hnone : ((sessionMessagesDesc db s0.id).take 10).find?
          (fun msg => msg.role == "assistant" && !msg.products.isEmpty) = none := by
        rw [List.find?_eq_none]
        intro msg hmsg hq
        rw [Bool.and_eq_true, beq_iff_eq] at hq
        have hempty := hwin s0 htemp msg hmsg hq.1
        rw [hempty] at hq
        simp at hq
      dsimp only
      rw [hnone]
  have happ : ∀ r1, applyReplyActions db u m (tempSession db u isNewChat sid)
      (requestedQuantity m) r1 = db := by
    intro r1
    unfold applyReplyActions
    rw [hfocus]
    have hns : needsSystemAction m = true := by
      unfold needsSystemAction
      rw [hpi]
      rfl
    rw [if_pos hns]
    split
    · split <;> rfl
    · rfl
  have hres : ∀ b s, (resolveSession db u b s).2.cart = db.cart := by
    intro b s
    unfold resolveSession createSession
    repeat' split
    all_goals rfl
  have hpt : ∀ d sess reply prods, (persistTurn env d sess m reply prods).cart = d.cart := by
    intro d sess reply prods
    unfold persistTurn
    split <;> rfl
  have hts : ∀ d i, (touchSession d i).cart = d.cart := by
    intro d i
    rfl
  refine ⟨hfocus, ?_, ?_, ?_⟩
  · simp [buildSystemData, hpi, hfocus]
  · exact includes_append_of_includes _ _ _ (by decide)
  · unfold sendChatMessage
    dsimp only
    repeat' split
    · rfl
    · rw [happ]
    · rw [happ, hts, hpt, hres]

/-- C3 witness: purchase-intent message add it on a session with no
product-bearing assistant message: focus is none, the block asks the
user to specify, and the cart is untouched even though the AI reply is
affirmative. -/
theorem C3_focus_none_witness :
    isPurchaseIntent "add it" = true ∧
    (findProductInRecent dbCart (tempSession dbCart "u1" false (some 1)) = none ∧
     buildSystemData dbCart "u1" (tempSession dbCart "u1" false (some 1)) "add it"
       (requestedQuantity "add it") = purchaseAskBlock "add it" (requestedQuantity "add it") ∧
     includes (purchaseAskBlock "add it" (requestedQuantity "add it"))
       "Ask user to specify which product they want to purchase" = true ∧
     (sendChatMessage envAdded dbCart "u1" "add it" false (some 1)).1.cart = dbCart.cart) :=
  ⟨by decide,
   C3_focus_none_asks_and_no_cart_item envAdded dbCart "u1" "add it" false (some 1)
     (by decide)
     (by
       intro s0 hs0 msg hmsg
       have h2 : tempSession dbCart "u1" false (some 1) =
           some { id := 1, userId := "u1", updatedAt := 5 } := by decide
       rw [h2] at hs0
       injection hs0 with h3
       have h4 : (sessionMessagesDesc dbCart s0.id).take 10 = [] := by
         rw [← h3]
         decide
       rw [h4] at hmsg
       simp at hmsg)⟩

/-- C4 amended: any AI failure aborts the turn with the user-facing
message chosen by pattern-matching the error, and no user or assistant
message is persisted.  The checks apply in order: timeout (code
UND_ERR_CONNECT_TIMEOUT or name AbortError) gives a message containing
timed out; then a message containing fetch failed gives the
check-your-connection text; then 401/Unauthorized suggests logging out
and back in; then 429/rate limit reports too many requests; anything
else gets the generic apology. -/
theorem C4_ai_failure_aborts_with_pattern_message (env : Env) (db : Db) (u m : String)
    (isNewChat : Bool) (sid : Option Nat) (e : JsError)
    (hfail : ∀ p, env.ai p = .error e) :
    (sendChatMessage env db u m isNewChat sid).2 = .error (errorUserMessage e) ∧
    (sendChatMessage env db u m isNewChat sid).1.messages = db.messages ∧
    ((e.code = some "UND_ERR_CONNECT_TIMEOUT" ∨ e.name = some "AbortError") →
       includes (errorUserMessage e) "timed out" = true) ∧
    (e.code ≠ some "UND_ERR_CONNECT_TIMEOUT" → e.name ≠ some "AbortError" →
       includes e.message "fetch failed" = true →
       errorUserMessage e =
         "Unable to connect to the AI service. Please check your internet connection and try again.") ∧
    (e.code ≠ some "UND_ERR_CONNECT_TIMEOUT" → e.name ≠ some "AbortError" →
       includes e.message "fetch failed" = false →
       (includes e.message "401" = true ∨ includes e.message "Unauthorized" = true) →
       errorUserMessage e = "Authentication error. Please try logging out and back in.") ∧
    (e.code ≠ some "UND_ERR_CONNECT_TIMEOUT" → e.name ≠ some "AbortError" →
       includes e.message "fetch failed" = false →
       includes e.message "401" = false → includes e.message "Unauthorized" = false →
       (includes e.message "429" = true ∨ includes e.message "rate limit" = true) →
       errorUserMessage e = "Too many requests. Please wait a moment before trying again.") ∧
    (e.code ≠ some "UND_ERR_CONNECT_TIMEOUT" → e.name ≠ some "AbortError" →
       includes e.message "fetch failed" = false →
       includes e.message "401" = false → includes e.message "Unauthorized" = false →
       includes e.message "429" = false → includes e.message "rate limit" = false →
       errorUserMessage e =
         "Sorry, I\x27m having trouble connecting right now. Please try again in a moment.") := by
  have hmain : sendChatMessage env db u m isNewChat sid = (db, .error (errorUserMessage e)) := by
    unfold sendChatMessage finalStage
    dsimp only
    by_cases hn : needsSystemAction m = true
    · rw [if_pos hn, hfail]
      rfl
    · rw [if_neg hn]
      dsimp only
      have happ0 : applyReplyActions db u m (tempSession db u isNewChat sid)
          (requestedQuantity m) none = db := by
        unfold applyReplyActions
        rw [if_neg hn]
        simp [contentTruthy]
      rw [happ0]
      by_cases hps : isProductSearch m = true
      · rw [if_pos hps]
        cases hc : env.catalog (followUpSearchQuery db u m isNewChat) with
        | ok results =>
          dsimp only
          rw [hfail]
          rfl
        | error x =>
          dsimp only
          rw [hfail]
          rfl
      · rw [if_neg hps]
        rw [hfail]
        rfl
  refine ⟨by rw [hmain], by rw [hmain], ?_, ?_, ?_, ?_, ?_⟩
  · intro h
    have hcond : (e.code == some "UND_ERR_CONNECT_TIMEOUT" || e.name == some "AbortError") = true := by
      rcases h with h | h <;> simp [h]
    unfold errorUserMessage
    rw [if_pos hcond]
    decide
  · intro h1 h2 h3
    unfold errorUserMessage
    rw [if_neg (by simp [h1, h2]), if_pos h3]
  · intro h1 h2 h3 h4
    have hcond : (includes e.message "401" || includes e.message "Unauthorized") = true := by
      rcases h4 with h | h <;> simp [h]
    unfold errorUserMessage
    rw [if_neg (by simp [h1, h2]), if_neg (by simp [h3]), if_pos hcond]
  · intro h1 h2 h3 h4 h5 h6
    have hcond : (includes e.message "429" || includes e.message "rate limit") = true := by
      rcases h6 with h | h <;> simp [h]
    unfold errorUserMessage
    rw [if_neg (by simp [h1, h2]), if_neg (by simp [h3]), if_neg (by simp [h4, h5]),
        if_pos hcond]
  · intro h1 h2 h3 h4 h5 h6 h7
    unfold errorUserMessage
    rw [if_neg (by simp [h1, h2]), if_neg (by simp [h3]), if_neg (by simp [h4, h5]),
        if_neg (by simp [h6, h7])]

/-- C4 witness: an AI that always fails with a 401 error aborts the turn
with the log-out-and-back-in message and persists nothing. -/
theorem C4_ai_failure_witness :
    (sendChatMessage envAuthFail dbOneSession "u1" "hello" false none).2 =
      .error (errorUserMessage { code := none, name := none, message := "401 Unauthorized" }) ∧
    (sendChatMessage envAuthFail dbOneSession "u1" "hello" false none).1.messages =
      dbOneSession.messages ∧
    errorUserMessage { code := none, name := none, message := "401 Unauthorized" } =
      "Authentication error. Please try logging out and back in." :=
  ⟨(C4_ai_failure_aborts_with_pattern_message envAuthFail dbOneSession "u1" "hello" false none
      { code := none, name := none, message := "401 Unauthorized" } (fun _ => rfl)).1,
   (C4_ai_failure_aborts_with_pattern_message envAuthFail dbOneSession "u1" "hello" false none
      { code := none, name := none, message := "401 Unauthorized" } (fun _ => rfl)).2.1,
   (C4_ai_failure_aborts_with_pattern_message envAuthFail dbOneSession "u1" "hello" false none
      { code := none, name := none, message := "401 Unauthorized" } (fun _ => rfl)).2.2.2.2.1
     (by decide) (by decide) (by decide) (Or.inl (by decide))⟩

/-- C9: a non-empty message matching no intent indicator (no specific
search, detailed requirement, consultation answer, follow-up, purchase,
history, specific-product history or cart-management match) defaults to
plain chat: no system action, no product search, an empty system-data
block, and the AI receives exactly the raw message augmented only with
the conversation context (the reply to that prompt is what the payload
returns, with no products attached). -/
theorem C9_plain_chat_default (env : Env) (db : Db) (u m : String)
    (isNewChat : Bool) (sid : Option Nat) (f : String → String)
    (_hne : m ≠ "")
    (h1 : hasSpecificIntent m = false) (h2 : hasDetailedRequirements m = false)
    (h3 : isAnsweringQuestions m = false) (h4 : isFollowUpQuestion m = false)
    (h5 : isPurchaseIntent m = false) (h6 : isHistoryInquiry m = false)
    (h7 : isSpecificProductHistoryInquiry m = false) (h8 : isCartManagement m = false)
    (hai : ∀ p, env.ai p = .ok (f p)) :
    needsSystemAction m = false ∧
    isProductSearch m = false ∧
    (∀ temp q, systemContextOf db u temp m q = "") ∧
    ∃ pay, (sendChatMessage env db u m isNewChat sid).2 = .ok pay ∧
      pay.message = f (plainContextMessage m (conversationContext db u isNewChat sid)) ∧
      pay.shopifyProducts = [] := by
  have hns : needsSystemAction m = false := by
    unfold needsSystemAction
    rw [h5, h6, h7, h8]
    rfl
  have hps : isProductSearch m = false := by
    unfold isProductSearch
    rw [h1, h2, h3, h4]
    rfl
  refine ⟨hns, hps, ?_, ?_⟩
  · intro temp q
    unfold systemContextOf
    rw [hns]
    rfl
  · unfold sendChatMessage finalStage
    dsimp only
    simp only [hns, hps, Bool.false_eq_true, if_false]
    have happ0 : applyReplyActions db u m (tempSession db u isNewChat sid)
        (requestedQuantity m) none = db := by
      unfold applyReplyActions
      rw [hns, h8]
      rfl
    rw [happ0, hai]
    exact ⟨_, rfl, rfl, rfl⟩

/-- C9 witness: the plain message hello with an echoing AI on a store
with no prior messages is forwarded verbatim. -/
theorem C9_plain_chat_witness :
    ("hello" ≠ "" ∧ hasSpecificIntent "hello" = false ∧
     hasDetailedRequirements "hello" = false ∧ isAnsweringQuestions "hello" = false ∧
     isFollowUpQuestion "hello" = false ∧ isPurchaseIntent "hello" = false ∧
     isHistoryInquiry "hello" = false ∧ isSpecificProductHistoryInquiry "hello" = false ∧
     isCartManagement "hello" = false) ∧
    conversationContext dbOneSession "u1" false none = "" ∧
    plainContextMessage "hello" "" = "hello" ∧
    (needsSystemAction "hello" = false ∧
     isProductSearch "hello" = false ∧
     (∀ temp q, systemContextOf dbOneSession "u1" temp "hello" q = "") ∧
     ∃ pay, (sendChatMessage envEcho dbOneSession "u1" "hello" false none).2 = .ok pay ∧
       pay.message = id (plainContextMessage "hello"
         (conversationContext dbOneSession "u1" false none)) ∧
       pay.shopifyProducts = []) :=
  ⟨by decide, by decide, by decide,
   C9_plain_chat_default envEcho dbOneSession "u1" "hello" false none id
     (by decide) (by decide) (by decide) (by decide) (by decide) (by decide) (by decide)
     (by decide) (by decide) (fun _ => rfl)⟩

theorem applyReplyActions_messages (db : Db) (u m : String) (temp : Option Session)
    (q : Nat) (r1 : Option String) :
    (applyReplyActions db u m temp q r1).messages = db.messages := by
  unfold applyReplyActions chatCartAdd removeMostRecentCartItem
  repeat' split
  all_goals rfl

theorem resolveSession_messages (db : Db) (u : String) (b : Bool) (s : Option Nat) :
    (resolveSession db u b s).2.messages = db.messages := by
  unfold resolveSession createSession
  repeat' split
  all_goals rfl

/-- C6: when the AI call succeeds, the turn always returns a success
payload carrying the AI reply and the session id; a failure of the
message-save step is swallowed (the store keeps its old messages but the
call still succeeds), and when saving works both the user turn and the
assistant turn are appended for the returned session. -/
theorem C6_persistence_swallowed_success (env : Env) (db : Db) (u m : String)
    (isNewChat : Bool) (sid : Option Nat) (f : String → String)
    (hai : ∀ p, env.ai p = .ok (f p)) :
    (∃ pay, (sendChatMessage env db u m isNewChat sid).2 = .ok pay) ∧
    (env.saveFails = true →
       (sendChatMessage env db u m isNewChat sid).1.messages = db.messages) ∧
    (env.saveFails = false →
       ∃ pay t, (sendChatMessage env db u m isNewChat sid).2 = .ok pay ∧
         (sendChatMessage env db u m isNewChat sid).1.messages =
           db.messages ++
             [{ sessionId := pay.sessionId, role := "user", content := m,
                products := [], timestamp := t },
              { sessionId := pay.sessionId, role := "assistant", content := pay.message,
                products := pay.shopifyProducts, timestamp := t + 1 }]) := by
  have hform : ∃ reply prods db1, db1.messages = db.messages ∧
      sendChatMessage env db u m isNewChat sid =
        (touchSession
          (persistTurn env (resolveSession db1 u isNewChat sid).2
            (resolveSession db1 u isNewChat sid).1 m reply prods)
          (resolveSession db1 u isNewChat sid).1.id,
         .ok { message := reply,
               sessionId := (resolveSession db1 u isNewChat sid).1.id,
               timestamp :=
                 (touchSession
                   (persistTurn env (resolveSession db1 u isNewChat sid).2
                     (resolveSession db1 u isNewChat sid).1 m reply prods)
                   (resolveSession db1 u isNewChat sid).1.id).now,
               isNewSession := isNewChat, shopifyProducts := prods }) := by
    unfold sendChatMessage finalStage
    dsimp only
    by_cases hn : needsSystemAction m = true
    · rw [if_pos hn, hai]
      simp only [Except.map]
      by_cases hps : isProductSearch m = true
      · rw [if_pos hps]
        cases hc : env.catalog (followUpSearchQuery
            (applyReplyActions db u m (tempSession db u isNewChat sid)
              (requestedQuantity m) (some (f (m ++ conversationContext db u isNewChat sid ++
                systemContextOf db u (tempSession db u isNewChat sid) m (requestedQuantity m)))))
            u m isNewChat) with
        | ok results =>
          dsimp only
          rw [hai]
          simp only [Except.map]
          exact ⟨_, results, _, applyReplyActions_messages db u m _ _ _, rfl⟩
        | error x =>
          dsimp only
          rw [hai]
          simp only [Except.map]
          exact ⟨_, [], _, applyReplyActions_messages db u m _ _ _, rfl⟩
      · rw [if_neg hps]
        rw [hai]
        simp only [Except.map]
        exact ⟨_, [], _, applyReplyActions_messages db u m _ _ _, rfl⟩
    · rw [if_neg hn]
      dsimp only
      by_cases hps : isProductSearch m = true
      · rw [if_pos hps]
        cases hc : env.catalog (followUpSearchQuery
            (applyReplyActions db u m (tempSession db u isNewChat sid)
              (requestedQuantity m) none) u m isNewChat) with
        | ok results =>
          dsimp only
          rw [hai]
          simp only [Except.map]
          exact ⟨_, results, _, applyReplyActions_messages db u m _ _ _, rfl⟩
        | error x =>
          dsimp only
          rw [hai]
          simp only [Except.map]
          exact ⟨_, [], _, applyReplyActions_messages db u m _ _ _, rfl⟩
      · rw [if_neg hps]
        rw [hai]
        simp only [Except.map]
        exact ⟨_, [], _, applyReplyActions_messages db u m _ _ _, rfl⟩
  obtain ⟨reply, prods, db1, hmsg1, heq⟩ := hform
  refine ⟨⟨_, by rw [heq]⟩, ?_, ?_⟩
  · intro hsf
    rw [heq]
    show (persistTurn env (resolveSession db1 u isNewChat sid).2
        (resolveSession db1 u isNewChat sid).1 m reply prods).messages = db.messages
    unfold persistTurn
    rw [if_pos hsf]
    rw [resolveSession_messages]
    exact hmsg1
  · intro hsf
    rw [heq]
    refine ⟨_, (resolveSession db1 u isNewChat sid).2.now, rfl, ?_⟩
    show (persistTurn env (resolveSession db1 u isNewChat sid).2
        (resolveSession db1 u isNewChat sid).1 m reply prods).messages = _
    unfold persistTurn
    rw [if_neg (by rw [hsf]; exact Bool.false_ne_true)]
    dsimp only
    rw [resolveSession_messages, hmsg1]

/-- C6 witness: an echoing AI over a store whose message saves fail:
the call still succeeds and the messages table is unchanged. -/
theorem C6_persistence_witness :
    (∃ pay, (sendChatMessage envEchoNoSave dbOneSession "u1" "hello" false none).2 = .ok pay) ∧
    (envEchoNoSave.saveFails = true →
       (sendChatMessage envEchoNoSave dbOneSession "u1" "hello" false none).1.messages =
         dbOneSession.messages) ∧
    (envEchoNoSave.saveFails = false →
       ∃ pay t, (sendChatMessage envEchoNoSave dbOneSession "u1" "hello" false none).2 = .ok pay ∧
         (sendChatMessage envEchoNoSave dbOneSession "u1" "hello" false none).1.messages =
           dbOneSession.messages ++
             [{ sessionId := pay.sessionId, role := "user", content := "hello",
                products := [], timestamp := t },
              { sessionId := pay.sessionId, role := "assistant", content := pay.message,
                products := pay.shopifyProducts, timestamp := t + 1 }]) :=
  C6_persistence_swallowed_success envEchoNoSave dbOneSession "u1" "hello" false none id
    (fun _ => rfl)
